import Mathlib

/-
Verification of the credential-issuance and validation subsystem of the
ags-backend repository (Go).  The definitions below are a shallow embedding of
the authoritative revisions of the source:

  * controller package: Handler.GenerateToken and Handler.VerifyToken
    (src/controller/controller.go, second revision, lines 781-864), together
    with the MongoRepo store operations (src/unnamed/part_004).
  * session package: Handler.GetUser middleware (src/unnamed/part_010,
    lines 136-155) and RedisMongo.CreateSession / RedisMongo.GetUser
    (src/session/redis_mongo.go, first revision).

The HMAC-SHA256 digest (Go standard library crypto/hmac, crypto/sha256 with
hex encoding) is an external primitive; it is modelled as an explicit function
parameter `hmacHex : String -> String -> String` taking the backend key and the
message.  The backing stores (MongoDB collection, Redis) are modelled as pure
data: an association list of controller documents, and functions for the
session key-value stores.
-/

namespace Ags

/-- A JSON response produced by a gin handler: HTTP status, the "message"
field, and the optional "token_id" field used by GenerateToken. -/
structure Resp where
  status : Nat
  message : String
  tokenId : Option String
  deriving Repr, DecidableEq

/- Response message strings of the controller package
   (src/controller/controller.go lines 575-591). -/

def resGenerate : String := "controller\x27s token generated"

def resVerifyOk : String := "token is correct"

def resInternal : String := "not your fault, don\x27t worry"

def resInvalid : String := "invalid values"

def resNotFound : String := "not found"

def resVerifyIncorrect : String := "token incorrect"

/-- Lowercase hexadecimal digit, as in the uuid4 regex of
go-playground/validator v10.2.0. -/
def isHexLower (c : Char) : Bool :=
  c.isDigit || (Char.ofNat 97 ≤ c && c ≤ Char.ofNat 102)

/-- Hexadecimal digit of either case, as accepted by google/uuid Parse. -/
def isHexChar (c : Char) : Bool :=
  isHexLower c || (Char.ofNat 65 ≤ c && c ≤ Char.ofNat 70)

/-- Models google/uuid v1.1.1 uuid.Parse succeeding on the canonical 36
character form xxxxxxxx-xxxx-xxxx-xxxx-xxxxxxxxxxxx (the only form the
handlers and tests exercise). -/
def uuidParseOk (s : String) : Bool :=
  let cs := s.toList
  cs.length == 36 &&
  (List.range 36).all (fun i =>
    let c := cs.getD i (Char.ofNat 32)
    if i == 8 || i == 13 || i == 18 || i == 23 then c == Char.ofNat 45
    else isHexChar c)

/-- Models the uuid4 binding tag of go-playground/validator v10.2.0, whose
regex is anchored lowercase hex with version digit 4 and variant in 89ab:
index 14 is the version character and index 19 the variant character. -/
def isUuid4 (s : String) : Bool :=
  let cs := s.toList
  cs.length == 36 &&
  (List.range 36).all (fun i =>
    let c := cs.getD i (Char.ofNat 32)
    if i == 8 || i == 13 || i == 18 || i == 23 then c == Char.ofNat 45
    else if i == 14 then c == Char.ofNat 52
    else if i == 19 then
      c == Char.ofNat 56 || c == Char.ofNat 57 ||
      c == Char.ofNat 97 || c == Char.ofNat 98
    else isHexLower c)

/-- A controller document as stored by MongoRepo: the fields written by
AddController (src/unnamed/part_004 lines 13-36) plus the token field set by
GenerateToken.  The Mongo _id is ControllerId. -/
structure ControllerDoc where
  controllerId : String
  userId : String
  name : String
  desc : String
  plan : String
  token : String
  deriving Repr, DecidableEq

/-- The controller collection, a list of documents keyed by _id. -/
abbrev ControllerStore := List ControllerDoc

/-- Errors of the controller Repo interface
(src/controller/controller.go lines 549-553): controllerNotFound and
tokenIncorrect; `other` stands for any transport or driver error. -/
inductive RepoErr where
  | notFound
  | tokenIncorrect
  | other
  deriving Repr, DecidableEq

namespace MongoRepo

/-- The filter used by MongoRepo operations on the controller collection:
FindOne / FindOneAndUpdate with filter on both _id and userId
(src/unnamed/part_004 lines 64-68 and 130). -/
def findController (store : ControllerStore) (userId controllerId : String) :
    Option ControllerDoc :=
  store.find? (fun r => r.controllerId == controllerId && r.userId == userId)

/-- The update applied by MongoRepo.GenerateToken: set the token field of the
document matching both _id = controllerId and userId. -/
def setToken (store : ControllerStore) (userId controllerId token : String) :
    ControllerStore :=
  store.map (fun r =>
    if r.controllerId == controllerId && r.userId == userId then
      { r with token := token }
    else r)

/-- MongoRepo.GenerateToken (src/unnamed/part_004 lines 129-141):
FindOneAndUpdate with filter on _id and userId, setting the token field;
ErrNoDocuments maps to controllerNotFound. -/
def GenerateToken (store : ControllerStore) (userId controllerId token : String) :
    Except RepoErr ControllerStore :=
  match findController store userId controllerId with
  | none => .error .notFound
  | some _ => .ok (setToken store userId controllerId token)

/-- Modelled from the spec: the Repo.VerifyToken store implementation is
absent from src - the Repo interface declares it
(src/controller/controller.go lines 542-545) and every MongoRepo revision
either leaves it as a panic stub or omits it.  Spec 4.4: load the stored
digest for the (owner_id, device_id) pair - a device held by a different
owner resolves as DeviceNotFound before any secret comparison - then compare
the stored digest with the submitted one, a mismatch being TokenIncorrect. -/
def VerifyToken (store : ControllerStore) (userId controllerId hashedToken : String) :
    Except RepoErr Unit :=
  match findController store userId controllerId with
  | none => .error .notFound
  | some r => if r.token == hashedToken then .ok () else .error .tokenIncorrect

end MongoRepo

/-- A store interaction performed by a handler, recording exactly the
arguments handed to the Repo. -/
inductive StoreOp where
  | genToken (userId controllerId token : String)
  | verifyTok (userId controllerId token : String)
  deriving Repr, DecidableEq

namespace Handler

/-- Handler.GenerateToken (src/controller/controller.go lines 781-816).
Inputs: the digest primitive, the backend key, the store, the result of
getUserId (none models a context extraction error, answered with 500), the
controllerId path parameter, and the freshly generated uuid tokenId.
Output: the response, the store interactions in order, and the new store.
The io.WriteString error branch is dead in this model because the digest
function is total. -/
def GenerateToken (hmacHex : String → String → String) (key : String)
    (store : ControllerStore) (userIdRes : Option String)
    (controllerId : String) (tokenId : String) :
    Resp × List StoreOp × ControllerStore :=
  match userIdRes with
  | none => (⟨500, resInternal, none⟩, [], store)
  | some userId =>
    if uuidParseOk controllerId then
      let hashedToken := hmacHex key tokenId
      match MongoRepo.GenerateToken store userId controllerId hashedToken with
      | .ok newStore =>
          (⟨200, resGenerate, some tokenId⟩,
           [StoreOp.genToken userId controllerId hashedToken], newStore)
      | .error .notFound =>
          (⟨404, resNotFound, none⟩,
           [StoreOp.genToken userId controllerId hashedToken], store)
      | .error _ =>
          (⟨500, resInternal, none⟩,
           [StoreOp.genToken userId controllerId hashedToken], store)
    else (⟨400, resInvalid, none⟩, [], store)

/-- The error-to-status mapping of Handler.VerifyToken
(src/controller/controller.go lines 848-863): controllerNotFound answers 404
"not found", tokenIncorrect answers 400 "token incorrect", any other error
answers 500, success answers 200 "token is correct". -/
def verifyTokenRespond (r : Except RepoErr Unit) : Resp :=
  match r with
  | .ok _ => ⟨200, resVerifyOk, none⟩
  | .error .notFound => ⟨404, resNotFound, none⟩
  | .error .tokenIncorrect => ⟨400, resVerifyIncorrect, none⟩
  | .error .other => ⟨500, resInternal, none⟩

/-- Handler.VerifyToken (src/controller/controller.go lines 818-864).
The request body binds to the VerifyToken struct whose Token field carries
the binding tags required and uuid4: `body = none` models a missing or
unparseable token field, and a present token must pass isUuid4 before the
digest is computed and the store consulted. -/
def VerifyToken (hmacHex : String → String → String) (key : String)
    (store : ControllerStore) (userIdRes : Option String)
    (controllerId : String) (body : Option String) :
    Resp × List StoreOp :=
  match userIdRes with
  | none => (⟨500, resInternal, none⟩, [])
  | some userId =>
    if uuidParseOk controllerId then
      match body with
      | none => (⟨400, resInvalid, none⟩, [])
      | some tok =>
        if isUuid4 tok then
          let hashedToken := hmacHex key tok
          (verifyTokenRespond (MongoRepo.VerifyToken store userId controllerId hashedToken),
           [StoreOp.verifyTok userId controllerId hashedToken])
        else (⟨400, resInvalid, none⟩, [])
    else (⟨400, resInvalid, none⟩, [])

end Handler

/- Session subsystem. -/

/-- A user identity record, as bound from the Google identity exchange
(src/unnamed/part_010 lines 25-31) and upserted by RedisMongo.CreateSession. -/
structure UserEntity where
  userId : String
  email : String
  emailVerified : Bool
  name : String
  picture : String

/-- The two backing stores of the session subsystem: the durable Mongo user
collection keyed by _id = userId, and the expiring Redis mapping from
sessionId to userId. -/
structure SessionState where
  userDb : String → Option UserEntity
  sessionDb : String → Option String

/-- Transport failures of the two session store calls. -/
inductive StoreErr where
  | mongoFailure
  | redisFailure
  deriving Repr, DecidableEq

/-- Errors surfaced by the session Repo: errNotFound
(src/unnamed/part_010 line 61) for a Redis miss, storeFailure for any
transport error passed through. -/
inductive SessionErr where
  | sessionNotFound
  | storeFailure
  deriving Repr, DecidableEq

namespace RedisMongo

/-- The ReplaceOne upsert of CreateSession keyed by _id = userId
(src/session/redis_mongo.go lines 19-30). -/
def upsertUser (db : String → Option UserEntity) (u : UserEntity) :
    String → Option UserEntity :=
  fun k => if k = u.userId then some u else db k

/-- The Redis SET of CreateSession mapping sessionId to userId
(src/session/redis_mongo.go line 33); the fixed 8 hour TTL is not part of the
functional state. -/
def redisSet (db : String → Option String) (k v : String) :
    String → Option String :=
  fun s => if s = k then some v else db s

/-- RedisMongo.CreateSession (src/session/redis_mongo.go lines 17-38): first
the durable identity upsert, then the session key set.  The booleans inject
transport failures of the respective store call; a call that fails leaves its
store unchanged and the function returns the error immediately, so a Mongo
failure happens before any Redis write. -/
def CreateSession (mongoOk redisOk : Bool) (st : SessionState)
    (u : UserEntity) (sessionId : String) : Option StoreErr × SessionState :=
  if mongoOk then
    let afterUpsert : SessionState := { st with userDb := upsertUser st.userDb u }
    if redisOk then
      (none, { afterUpsert with
                 sessionDb := redisSet afterUpsert.sessionDb sessionId u.userId })
    else (some .redisFailure, afterUpsert)
  else (some .mongoFailure, st)

/-- RedisMongo.GetUser (src/session/redis_mongo.go lines 49-65): a Redis miss
(redis.Nil) maps to errNotFound, a transport error is passed through, and a
hit returns the stored userId. -/
def GetUser (redisOk : Bool) (st : SessionState) (sessionId : String) :
    Except SessionErr String :=
  if redisOk then
    match st.sessionDb sessionId with
    | none => .error .sessionNotFound
    | some uid => .ok uid
  else .error .storeFailure

end RedisMongo

/- Session handler message strings (src/unnamed/part_010 lines 71-78). -/

def resNotAuth : String := "not authorized"

def resSessionInternal : String := "not your fault, internal error"

/-- Models strings.TrimSpace of the Go standard library: drop leading and
trailing whitespace. -/
def trimSpace (s : String) : String :=
  String.mk (((s.toList.dropWhile Char.isWhitespace).reverse.dropWhile
    Char.isWhitespace).reverse)

/-- The outcome of the GetUser middleware on a request: either the chain is
aborted with a status and fixed message body, or the request proceeds with
userId set in the request context. -/
inductive GateResult where
  | abort (status : Nat) (message : String)
  | proceed (userId : String)
  deriving Repr, DecidableEq

namespace SessionHandler

/-- Handler.GetUser middleware (src/unnamed/part_010 lines 136-155).
`cookie = none` models ctx.Cookie returning an error (no sessionId cookie);
an empty-after-trim value is rejected the same way.  `resolve` is the session
Repo.GetUser capability. -/
def GetUser (cookie : Option String)
    (resolve : String → Except SessionErr String) : GateResult :=
  match cookie with
  | none => .abort 401 resNotAuth
  | some sessionId =>
    if trimSpace sessionId = "" then .abort 401 resNotAuth
    else
      match resolve sessionId with
      | .ok userId => .proceed userId
      | .error .sessionNotFound => .abort 401 resNotAuth
      | .error .storeFailure => .abort 500 resSessionInternal

end SessionHandler

/-- Gin chain semantics for a protected route: an aborted middleware result
(AbortWithStatusJSON) is the final response and the downstream handler never
runs; otherwise the handler runs with the userId the gate attached. -/
def runProtected (gate : GateResult) (handler : String → Resp) : Resp :=
  match gate with
  | .abort s m => ⟨s, m, none⟩
  | .proceed uid => handler uid

/-- Invariant of the session stores: every live session key resolves to an
owner whose identity record exists in the durable store. -/
def sessionInv (st : SessionState) : Prop :=
  ∀ s uid, st.sessionDb s = some uid → (st.userDb uid).isSome = true

/- Helper lemmas about the Mongo controller collection model. -/

/-- Looking a document up after setToken on the same (userId, controllerId)
filter returns the same document with its token field replaced. -/
theorem findController_setToken (store : ControllerStore)
    (userId controllerId tok : String) (r : ControllerDoc)
    (h : MongoRepo.findController store userId controllerId = some r) :
    MongoRepo.findController (MongoRepo.setToken store userId controllerId tok)
      userId controllerId = some { r with token := tok } := by
  induction store with
  | nil => simp [MongoRepo.findController] at h
  | cons a l ih =>
    simp only [MongoRepo.findController] at h ⊢
    simp only [MongoRepo.setToken, List.map_cons]
    by_cases hpa : (a.controllerId == controllerId && a.userId == userId) = true
    · rw [@List.find?_cons_of_pos ControllerDoc
        (fun r => r.controllerId == controllerId && r.userId == userId) a l hpa] at h
      have hra : a = r := Option.some.inj h
      subst hra
      rw [if_pos hpa]
      exact List.find?_cons_of_pos _ (by simpa using hpa)
    · rw [@List.find?_cons_of_neg ControllerDoc
        (fun r => r.controllerId == controllerId && r.userId == userId) a l hpa] at h
      have h3 := ih h
      simp only [MongoRepo.findController, MongoRepo.setToken] at h3
      rw [if_neg hpa]
      rw [@List.find?_cons_of_neg ControllerDoc
        (fun r => r.controllerId == controllerId && r.userId == userId) a _ hpa]
      exact h3

/-- When every document carrying this controllerId belongs to owner b, a
lookup scoped to a different owner a misses. -/
theorem findController_none_of_foreign (store : ControllerStore)
    (a b controllerId : String)
    (hall : ∀ r ∈ store, r.controllerId = controllerId → r.userId = b)
    (hab : a ≠ b) :
    MongoRepo.findController store a controllerId = none := by
  simp only [MongoRepo.findController]
  rw [List.find?_eq_none]
  intro x hx
  simp only [Bool.and_eq_true, beq_iff_eq, not_and]
  intro hcid huid
  exact absurd (huid ▸ hall x hx hcid) hab

/-- C1: Issue-then-verify round trip.  For every backend secret key, owner
and device the owner possesses, GenerateToken issues the plaintext tokenId,
stores only its keyed digest, and a subsequent VerifyToken for the same
owner, device and plaintext answers 200 "token is correct", because both
operations compute the same deterministic keyed hash. -/
theorem c1_issue_then_verify (hmacHex : String → String → String)
    (key : String) (store : ControllerStore)
    (userId controllerId tokenId : String)
    (hcid : uuidParseOk controllerId = true)
    (htok : isUuid4 tokenId = true)
    (hdev : (MongoRepo.findController store userId controllerId).isSome = true) :
    (Handler.GenerateToken hmacHex key store (some userId) controllerId tokenId).1 =
      ⟨200, resGenerate, some tokenId⟩ ∧
    (Handler.VerifyToken hmacHex key
        (Handler.GenerateToken hmacHex key store (some userId) controllerId tokenId).2.2
        (some userId) controllerId (some tokenId)).1 =
      ⟨200, resVerifyOk, none⟩ := by
  obtain ⟨r, hr⟩ := Option.isSome_iff_exists.mp hdev
  have hgen : Handler.GenerateToken hmacHex key store (some userId) controllerId tokenId =
      (⟨200, resGenerate, some tokenId⟩,
       [StoreOp.genToken userId controllerId (hmacHex key tokenId)],
       MongoRepo.setToken store userId controllerId (hmacHex key tokenId)) := by
    simp [Handler.GenerateToken, hcid, MongoRepo.GenerateToken, hr]
  have hfind := findController_setToken store userId controllerId
    (hmacHex key tokenId) r hr
  constructor
  · rw [hgen]
  · rw [hgen]
    simp [Handler.VerifyToken, hcid, htok, MongoRepo.VerifyToken, hfind,
      Handler.verifyTokenRespond]

/-- Witness for C1 at a concrete key, store, owner, device and plaintext. -/
theorem c1_issue_then_verify_witness :
    (Handler.GenerateToken (fun k m => k ++ m) "key"
        [⟨"f1d67e51-4ca4-4b25-a4b7-6c8f06822075",
          "76de6d55-e457-4070-8aef-5633726d498f", "Controller", "", "", ""⟩]
        (some "76de6d55-e457-4070-8aef-5633726d498f")
        "f1d67e51-4ca4-4b25-a4b7-6c8f06822075"
        "11111111-1111-4111-8111-111111111111").1 =
      ⟨200, resGenerate, some "11111111-1111-4111-8111-111111111111"⟩ ∧
    (Handler.VerifyToken (fun k m => k ++ m) "key"
        (Handler.GenerateToken (fun k m => k ++ m) "key"
          [⟨"f1d67e51-4ca4-4b25-a4b7-6c8f06822075",
            "76de6d55-e457-4070-8aef-5633726d498f", "Controller", "", "", ""⟩]
          (some "76de6d55-e457-4070-8aef-5633726d498f")
          "f1d67e51-4ca4-4b25-a4b7-6c8f06822075"
          "11111111-1111-4111-8111-111111111111").2.2
        (some "76de6d55-e457-4070-8aef-5633726d498f")
        "f1d67e51-4ca4-4b25-a4b7-6c8f06822075"
        (some "11111111-1111-4111-8111-111111111111")).1 =
      ⟨200, resVerifyOk, none⟩ :=
  c1_issue_then_verify (fun k m => k ++ m) "key"
    [⟨"f1d67e51-4ca4-4b25-a4b7-6c8f06822075",
      "76de6d55-e457-4070-8aef-5633726d498f", "Controller", "", "", ""⟩]
    "76de6d55-e457-4070-8aef-5633726d498f"
    "f1d67e51-4ca4-4b25-a4b7-6c8f06822075"
    "11111111-1111-4111-8111-111111111111"
    (by decide) (by decide) (by decide)

/-- C2: Token issuance is last-writer-wins.  Issuing a second token for the
same device replaces the stored digest, so afterwards VerifyToken with the
first plaintext answers 400 "token incorrect" while VerifyToken with the
second plaintext answers 200 "token is correct".  The two digests are
assumed distinct, which holds for HMAC-SHA256 on distinct plaintexts except
for a negligible collision. -/
theorem c2_last_writer_wins (hmacHex : String → String → String)
    (key : String) (store : ControllerStore)
    (userId controllerId t1 t2 : String)
    (hcid : uuidParseOk controllerId = true)
    (ht1 : isUuid4 t1 = true) (ht2 : isUuid4 t2 = true)
    (hdev : (MongoRepo.findController store userId controllerId).isSome = true)
    (hdiff : hmacHex key t1 ≠ hmacHex key t2) :
    (Handler.VerifyToken hmacHex key
        (Handler.GenerateToken hmacHex key
          (Handler.GenerateToken hmacHex key store (some userId) controllerId t1).2.2
          (some userId) controllerId t2).2.2
        (some userId) controllerId (some t1)).1 =
      ⟨400, resVerifyIncorrect, none⟩ ∧
    (Handler.VerifyToken hmacHex key
        (Handler.GenerateToken hmacHex key
          (Handler.GenerateToken hmacHex key store (some userId) controllerId t1).2.2
          (some userId) controllerId t2).2.2
        (some userId) controllerId (some t2)).1 =
      ⟨200, resVerifyOk, none⟩ := by
  obtain ⟨r, hr⟩ := Option.isSome_iff_exists.mp hdev
  have hgen1 : (Handler.GenerateToken hmacHex key store (some userId) controllerId t1).2.2 =
      MongoRepo.setToken store userId controllerId (hmacHex key t1) := by
    simp [Handler.GenerateToken, hcid, MongoRepo.GenerateToken, hr]
  have hfind1 := findController_setToken store userId controllerId (hmacHex key t1) r hr
  have hgen2 : (Handler.GenerateToken hmacHex key
      (MongoRepo.setToken store userId controllerId (hmacHex key t1))
      (some userId) controllerId t2).2.2 =
      MongoRepo.setToken (MongoRepo.setToken store userId controllerId (hmacHex key t1))
        userId controllerId (hmacHex key t2) := by
    simp [Handler.GenerateToken, hcid, MongoRepo.GenerateToken, hfind1]
  have hfind2 := findController_setToken
    (MongoRepo.setToken store userId controllerId (hmacHex key t1))
    userId controllerId (hmacHex key t2) _ hfind1
  rw [hgen1, hgen2]
  constructor
  · simp [Handler.VerifyToken, hcid, ht1, MongoRepo.VerifyToken, hfind2,
      Handler.verifyTokenRespond, Ne.symm hdiff]
  · simp [Handler.VerifyToken, hcid, ht2, MongoRepo.VerifyToken, hfind2,
      Handler.verifyTokenRespond]

/-- Witness for C2 with two distinct concrete plaintexts. -/
theorem c2_last_writer_wins_witness :
    (Handler.VerifyToken (fun _ m => m) "key"
        (Handler.GenerateToken (fun _ m => m) "key"
          (Handler.GenerateToken (fun _ m => m) "key"
            [⟨"f1d67e51-4ca4-4b25-a4b7-6c8f06822075",
              "76de6d55-e457-4070-8aef-5633726d498f", "Controller", "", "", ""⟩]
            (some "76de6d55-e457-4070-8aef-5633726d498f")
            "f1d67e51-4ca4-4b25-a4b7-6c8f06822075"
            "11111111-1111-4111-8111-111111111111").2.2
          (some "76de6d55-e457-4070-8aef-5633726d498f")
          "f1d67e51-4ca4-4b25-a4b7-6c8f06822075"
          "22222222-2222-4222-8222-222222222222").2.2
        (some "76de6d55-e457-4070-8aef-5633726d498f")
        "f1d67e51-4ca4-4b25-a4b7-6c8f06822075"
        (some "11111111-1111-4111-8111-111111111111")).1 =
      ⟨400, resVerifyIncorrect, none⟩ ∧
    (Handler.VerifyToken (fun _ m => m) "key"
        (Handler.GenerateToken (fun _ m => m) "key"
          (Handler.GenerateToken (fun _ m => m) "key"
            [⟨"f1d67e51-4ca4-4b25-a4b7-6c8f06822075",
              "76de6d55-e457-4070-8aef-5633726d498f", "Controller", "", "", ""⟩]
            (some "76de6d55-e457-4070-8aef-5633726d498f")
            "f1d67e51-4ca4-4b25-a4b7-6c8f06822075"
            "11111111-1111-4111-8111-111111111111").2.2
          (some "76de6d55-e457-4070-8aef-5633726d498f")
          "f1d67e51-4ca4-4b25-a4b7-6c8f06822075"
          "22222222-2222-4222-8222-222222222222").2.2
        (some "76de6d55-e457-4070-8aef-5633726d498f")
        "f1d67e51-4ca4-4b25-a4b7-6c8f06822075"
        (some "22222222-2222-4222-8222-222222222222")).1 =
      ⟨200, resVerifyOk, none⟩ :=
  c2_last_writer_wins (fun _ m => m) "key"
    [⟨"f1d67e51-4ca4-4b25-a4b7-6c8f06822075",
      "76de6d55-e457-4070-8aef-5633726d498f", "Controller", "", "", ""⟩]
    "76de6d55-e457-4070-8aef-5633726d498f"
    "f1d67e51-4ca4-4b25-a4b7-6c8f06822075"
    "11111111-1111-4111-8111-111111111111"
    "22222222-2222-4222-8222-222222222222"
    (by decide) (by decide) (by decide) (by decide) (by decide)

/-- C3: Cross-owner scoping.  When every document with this controllerId
belongs to owner B and A is a different owner, the store lookup scoped to A
misses: the repository reports controllerNotFound for every submitted digest
(even one equal to the digest stored for B), the endpoint answers 404 "not
found" for every well-formed token, and no submitted token value is ever
answered with "token incorrect" - the ownership check decides before any
secret comparison. -/
theorem c3_cross_owner_scoping (hmacHex : String → String → String)
    (key : String) (store : ControllerStore)
    (ownerA ownerB controllerId : String)
    (hcid : uuidParseOk controllerId = true)
    (_hexists : ∃ r ∈ store, r.controllerId = controllerId ∧ r.userId = ownerB)
    (hforeign : ∀ r ∈ store, r.controllerId = controllerId → r.userId = ownerB)
    (hab : ownerA ≠ ownerB) :
    (∀ hashedToken, MongoRepo.VerifyToken store ownerA controllerId hashedToken =
        .error .notFound) ∧
    (∀ tok, isUuid4 tok = true →
        (Handler.VerifyToken hmacHex key store (some ownerA) controllerId (some tok)).1 =
          ⟨404, resNotFound, none⟩) ∧
    (∀ tok, (Handler.VerifyToken hmacHex key store (some ownerA) controllerId
        (some tok)).1.message ≠ resVerifyIncorrect) := by
  have hnone := findController_none_of_foreign store ownerA ownerB controllerId hforeign hab
  refine ⟨?_, ?_, ?_⟩
  · intro hashedToken
    simp [MongoRepo.VerifyToken, hnone]
  · intro tok htok
    simp [Handler.VerifyToken, hcid, htok, MongoRepo.VerifyToken, hnone,
      Handler.verifyTokenRespond]
  · intro tok
    by_cases htok : isUuid4 tok = true
    · rw [show (Handler.VerifyToken hmacHex key store (some ownerA) controllerId
          (some tok)).1 = ⟨404, resNotFound, none⟩ from by
        simp [Handler.VerifyToken, hcid, htok, MongoRepo.VerifyToken, hnone,
          Handler.verifyTokenRespond]]
      decide
    · rw [show (Handler.VerifyToken hmacHex key store (some ownerA) controllerId
          (some tok)).1 = ⟨400, resInvalid, none⟩ from by
        simp [Handler.VerifyToken, hcid, htok]]
      decide

/-- Witness for C3: the device belongs to owner B, the caller is owner A. -/
theorem c3_cross_owner_scoping_witness :
    MongoRepo.VerifyToken
      [⟨"f1d67e51-4ca4-4b25-a4b7-6c8f06822075",
        "76de6d55-e457-4070-8aef-5633726d498f", "Controller", "", "",
        "storeddigest"⟩]
      "99999999-9999-4999-8999-999999999999"
      "f1d67e51-4ca4-4b25-a4b7-6c8f06822075" "storeddigest" =
      .error .notFound ∧
    (Handler.VerifyToken (fun _ m => m) "key"
      [⟨"f1d67e51-4ca4-4b25-a4b7-6c8f06822075",
        "76de6d55-e457-4070-8aef-5633726d498f", "Controller", "", "",
        "storeddigest"⟩]
      (some "99999999-9999-4999-8999-999999999999")
      "f1d67e51-4ca4-4b25-a4b7-6c8f06822075"
      (some "11111111-1111-4111-8111-111111111111")).1 =
      ⟨404, resNotFound, none⟩ := by
  have h := c3_cross_owner_scoping (fun _ m => m) "key"
    [⟨"f1d67e51-4ca4-4b25-a4b7-6c8f06822075",
      "76de6d55-e457-4070-8aef-5633726d498f", "Controller", "", "",
      "storeddigest"⟩]
    "99999999-9999-4999-8999-999999999999"
    "76de6d55-e457-4070-8aef-5633726d498f"
    "f1d67e51-4ca4-4b25-a4b7-6c8f06822075"
    (by decide)
    ⟨⟨"f1d67e51-4ca4-4b25-a4b7-6c8f06822075",
      "76de6d55-e457-4070-8aef-5633726d498f", "Controller", "", "",
      "storeddigest"⟩, by simp, by simp⟩
    (by intro r hrr; simp at hrr; subst hrr; simp) (by decide)
  exact ⟨h.1 "storeddigest",
    h.2.1 "11111111-1111-4111-8111-111111111111" (by decide)⟩

/-- C5: Hash-only persistence.  In every execution of token issuance the only
token value handed to the credential store is the keyed digest of the freshly
generated plaintext, and on success the plaintext is returned once in the
response body as token_id. -/
theorem c5_hash_only_persistence (hmacHex : String → String → String)
    (key : String) (store : ControllerStore)
    (userId controllerId tokenId : String) :
    (∀ op ∈ (Handler.GenerateToken hmacHex key store (some userId) controllerId
        tokenId).2.1,
        op = StoreOp.genToken userId controllerId (hmacHex key tokenId)) ∧
    ((Handler.GenerateToken hmacHex key store (some userId) controllerId
        tokenId).1.status = 200 →
      (Handler.GenerateToken hmacHex key store (some userId) controllerId
        tokenId).1.tokenId = some tokenId) := by
  by_cases hc : uuidParseOk controllerId = true
  · cases hgen : MongoRepo.GenerateToken store userId controllerId (hmacHex key tokenId) with
    | ok ns =>
      refine ⟨fun op hop => ?_, fun _ => ?_⟩
      · simpa [Handler.GenerateToken, hc, hgen] using hop
      · simp [Handler.GenerateToken, hc, hgen]
    | error e =>
      cases e <;>
        refine ⟨fun op hop => by simpa [Handler.GenerateToken, hc, hgen] using hop,
                fun hst => by simp [Handler.GenerateToken, hc, hgen] at hst⟩
  · refine ⟨fun op hop => ?_, fun hst => ?_⟩
    · simp [Handler.GenerateToken, hc] at hop
    · simp [Handler.GenerateToken, hc] at hst

/-- Witness for C5 at a concrete issuance. -/
theorem c5_hash_only_persistence_witness :
    (∀ op ∈ (Handler.GenerateToken (fun k m => k ++ m) "key"
        [⟨"f1d67e51-4ca4-4b25-a4b7-6c8f06822075",
          "76de6d55-e457-4070-8aef-5633726d498f", "Controller", "", "", ""⟩]
        (some "76de6d55-e457-4070-8aef-5633726d498f")
        "f1d67e51-4ca4-4b25-a4b7-6c8f06822075"
        "11111111-1111-4111-8111-111111111111").2.1,
        op = StoreOp.genToken "76de6d55-e457-4070-8aef-5633726d498f"
          "f1d67e51-4ca4-4b25-a4b7-6c8f06822075"
          ((fun k m => k ++ m) "key" "11111111-1111-4111-8111-111111111111")) ∧
    ((Handler.GenerateToken (fun k m => k ++ m) "key"
        [⟨"f1d67e51-4ca4-4b25-a4b7-6c8f06822075",
          "76de6d55-e457-4070-8aef-5633726d498f", "Controller", "", "", ""⟩]
        (some "76de6d55-e457-4070-8aef-5633726d498f")
        "f1d67e51-4ca4-4b25-a4b7-6c8f06822075"
        "11111111-1111-4111-8111-111111111111").1.status = 200 →
      (Handler.GenerateToken (fun k m => k ++ m) "key"
        [⟨"f1d67e51-4ca4-4b25-a4b7-6c8f06822075",
          "76de6d55-e457-4070-8aef-5633726d498f", "Controller", "", "", ""⟩]
        (some "76de6d55-e457-4070-8aef-5633726d498f")
        "f1d67e51-4ca4-4b25-a4b7-6c8f06822075"
        "11111111-1111-4111-8111-111111111111").1.tokenId =
        some "11111111-1111-4111-8111-111111111111") :=
  c5_hash_only_persistence (fun k m => k ++ m) "key"
    [⟨"f1d67e51-4ca4-4b25-a4b7-6c8f06822075",
      "76de6d55-e457-4070-8aef-5633726d498f", "Controller", "", "", ""⟩]
    "76de6d55-e457-4070-8aef-5633726d498f"
    "f1d67e51-4ca4-4b25-a4b7-6c8f06822075"
    "11111111-1111-4111-8111-111111111111"

/-- C6: For every request whose session value is absent or empty after
trimming whitespace, the Authentication Gate answers 401 with the fixed
"not authorized" body and aborts the chain: whatever the downstream handler
would do, the response is the fixed 401 body and no userId is attached. -/
theorem c6_gate_rejects_missing_session (cookie : Option String)
    (resolve : String → Except SessionErr String) (handler : String → Resp)
    (h : cookie = none ∨ ∃ s, cookie = some s ∧ trimSpace s = "") :
    SessionHandler.GetUser cookie resolve = .abort 401 resNotAuth ∧
    runProtected (SessionHandler.GetUser cookie resolve) handler =
      ⟨401, resNotAuth, none⟩ := by
  rcases h with h | ⟨s, hs, htrim⟩
  · subst h
    exact ⟨rfl, rfl⟩
  · subst hs
    refine ⟨?_, ?_⟩
    · simp [SessionHandler.GetUser, htrim]
    · simp [SessionHandler.GetUser, htrim, runProtected]

/-- Witness for C6: a whitespace-only session cookie is rejected even though
the resolver would have succeeded and the handler would have answered 200. -/
theorem c6_gate_rejects_missing_session_witness :
    SessionHandler.GetUser (some "   ") (fun _ => .ok "u1") =
      .abort 401 resNotAuth ∧
    runProtected (SessionHandler.GetUser (some "   ") (fun _ => .ok "u1"))
      (fun uid => ⟨200, uid, none⟩) = ⟨401, resNotAuth, none⟩ :=
  c6_gate_rejects_missing_session (some "   ") (fun _ => .ok "u1")
    (fun uid => ⟨200, uid, none⟩) (Or.inr ⟨"   ", rfl, by decide⟩)

/-- C7: The Authentication Gate distinguishes failure causes: a resolver
miss is answered 401 "not authorized" while a resolver transport failure is
answered 500, and the RedisMongo resolver maps a Redis miss to
sessionNotFound and a transport failure to storeFailure - a miss is never an
internal error and an outage is never unauthorized. -/
theorem c7_gate_distinguishes_failures (st : SessionState) (sessionId : String)
    (hs : ¬ trimSpace sessionId = "") :
    (∀ resolve : String → Except SessionErr String,
        resolve sessionId = .error .sessionNotFound →
        SessionHandler.GetUser (some sessionId) resolve = .abort 401 resNotAuth) ∧
    (∀ resolve : String → Except SessionErr String,
        resolve sessionId = .error .storeFailure →
        SessionHandler.GetUser (some sessionId) resolve =
          .abort 500 resSessionInternal) ∧
    (st.sessionDb sessionId = none →
        RedisMongo.GetUser true st sessionId = .error .sessionNotFound) ∧
    RedisMongo.GetUser false st sessionId = .error .storeFailure := by
  refine ⟨?_, ?_, ?_, ?_⟩
  · intro resolve hres
    simp [SessionHandler.GetUser, hs, hres]
  · intro resolve hres
    simp [SessionHandler.GetUser, hs, hres]
  · intro hmiss
    simp [RedisMongo.GetUser, hmiss]
  · simp [RedisMongo.GetUser]

/-- Witness for C7 at a concrete session id and empty stores. -/
theorem c7_gate_distinguishes_failures_witness :
    SessionHandler.GetUser (some "s1") (fun _ => .error .sessionNotFound) =
      .abort 401 resNotAuth ∧
    SessionHandler.GetUser (some "s1") (fun _ => .error .storeFailure) =
      .abort 500 resSessionInternal ∧
    RedisMongo.GetUser true ⟨fun _ => none, fun _ => none⟩ "s1" =
      .error .sessionNotFound ∧
    RedisMongo.GetUser false ⟨fun _ => none, fun _ => none⟩ "s1" =
      .error .storeFailure := by
  have h := c7_gate_distinguishes_failures ⟨fun _ => none, fun _ => none⟩ "s1"
    (by decide)
  exact ⟨h.1 _ rfl, h.2.1 _ rfl, h.2.2.1 rfl, h.2.2.2⟩

/-- The durable identity upsert never removes an existing identity record. -/
theorem upsertUser_isSome (db : String → Option UserEntity) (u : UserEntity)
    (uid : String) (h : (db uid).isSome = true) :
    (RedisMongo.upsertUser db u uid).isSome = true := by
  simp only [RedisMongo.upsertUser]
  split
  · simp
  · exact h

/-- C8: Session-creation ordering.  The identity upsert happens before the
session key set: a Mongo failure returns with the whole state unchanged (so
the session key is never written), the invariant that every session key has
an identity record is preserved by every outcome, and on success the new
session key resolves to the owner whose identity record was just upserted. -/
theorem c8_create_session_ordering (mongoOk redisOk : Bool) (st : SessionState)
    (u : UserEntity) (sessionId : String) :
    (mongoOk = false →
        RedisMongo.CreateSession mongoOk redisOk st u sessionId =
          (some .mongoFailure, st)) ∧
    (sessionInv st →
        sessionInv (RedisMongo.CreateSession mongoOk redisOk st u sessionId).2) ∧
    ((RedisMongo.CreateSession mongoOk redisOk st u sessionId).1 = none →
        (RedisMongo.CreateSession mongoOk redisOk st u sessionId).2.sessionDb
          sessionId = some u.userId ∧
        (RedisMongo.CreateSession mongoOk redisOk st u sessionId).2.userDb
          u.userId = some u) := by
  cases mongoOk with
  | false =>
    refine ⟨fun _ => rfl, fun hinv => hinv, fun hnone => ?_⟩
    simp [RedisMongo.CreateSession] at hnone
  | true =>
    cases redisOk with
    | false =>
      refine ⟨fun h => (nomatch h), fun hinv => ?_, fun hnone => ?_⟩
      · intro s uid hmap
        simp only [RedisMongo.CreateSession, if_true] at hmap ⊢
        exact upsertUser_isSome _ _ _ (hinv s uid hmap)
      · simp [RedisMongo.CreateSession] at hnone
    | true =>
      refine ⟨fun h => (nomatch h), fun hinv => ?_, fun _ => ?_⟩
      · intro s uid hmap
        simp only [RedisMongo.CreateSession, if_true,
          RedisMongo.redisSet] at hmap ⊢
        by_cases hsid : s = sessionId
        · rw [if_pos hsid] at hmap
          have huid : u.userId = uid := Option.some.inj hmap
          subst huid
          simp [RedisMongo.upsertUser]
        · rw [if_neg hsid] at hmap
          exact upsertUser_isSome _ _ _ (hinv s uid hmap)
      · constructor
        · simp [RedisMongo.CreateSession, RedisMongo.redisSet]
        · simp [RedisMongo.CreateSession, RedisMongo.upsertUser]

/-- Witness for C8: with a failing Mongo upsert no session key appears; with
both stores healthy the session key and the identity record both exist. -/
theorem c8_create_session_ordering_witness :
    RedisMongo.CreateSession false true ⟨fun _ => none, fun _ => none⟩
      ⟨"u1", "e", true, "N", "p"⟩ "s1" =
      (some StoreErr.mongoFailure, ⟨fun _ => none, fun _ => none⟩) ∧
    (RedisMongo.CreateSession true true ⟨fun _ => none, fun _ => none⟩
      ⟨"u1", "e", true, "N", "p"⟩ "s1").2.sessionDb "s1" = some "u1" ∧
    (RedisMongo.CreateSession true true ⟨fun _ => none, fun _ => none⟩
      ⟨"u1", "e", true, "N", "p"⟩ "s1").2.userDb "u1" =
      some ⟨"u1", "e", true, "N", "p"⟩ := by
  refine ⟨(c8_create_session_ordering false true ⟨fun _ => none, fun _ => none⟩
    ⟨"u1", "e", true, "N", "p"⟩ "s1").1 rfl, ?_, ?_⟩
  · exact ((c8_create_session_ordering true true ⟨fun _ => none, fun _ => none⟩
      ⟨"u1", "e", true, "N", "p"⟩ "s1").2.2 rfl).1
  · exact ((c8_create_session_ordering true true ⟨fun _ => none, fun _ => none⟩
      ⟨"u1", "e", true, "N", "p"⟩ "s1").2.2 rfl).2

/-- C9 counterexample: a well-formed verification request for a device the
store does not hold answers 404 "not found", not 400, so the claim that the
endpoint answers 400 in both failure cases is false on the code. -/
theorem c9_status_mapping_counterexample :
    (Handler.VerifyToken (fun k m => k ++ m) "key" []
        (some "76de6d55-e457-4070-8aef-5633726d498f")
        "f1d67e51-4ca4-4b25-a4b7-6c8f06822075"
        (some "11111111-1111-4111-8111-111111111111")).1 =
      ⟨404, resNotFound, none⟩ ∧
    (Handler.VerifyToken (fun k m => k ++ m) "key" []
        (some "76de6d55-e457-4070-8aef-5633726d498f")
        "f1d67e51-4ca4-4b25-a4b7-6c8f06822075"
        (some "11111111-1111-4111-8111-111111111111")).1.status ≠ 400 := by
  constructor
  · decide
  · decide

/-- C9 amended: with a well-formed body the endpoint answers 200 "token is
correct" when the token is correct, 404 "not found" when the device is
unknown to the caller, and 400 "token incorrect" when the token is wrong -
the two failures carry distinct statuses and distinct messages. -/
theorem c9_status_mapping_amended (hmacHex : String → String → String)
    (key : String) (store : ControllerStore)
    (userId controllerId tok : String)
    (hcid : uuidParseOk controllerId = true) (htok : isUuid4 tok = true) :
    (MongoRepo.VerifyToken store userId controllerId (hmacHex key tok) = .ok () →
        (Handler.VerifyToken hmacHex key store (some userId) controllerId
          (some tok)).1 = ⟨200, resVerifyOk, none⟩) ∧
    (MongoRepo.VerifyToken store userId controllerId (hmacHex key tok) =
        .error .notFound →
        (Handler.VerifyToken hmacHex key store (some userId) controllerId
          (some tok)).1 = ⟨404, resNotFound, none⟩) ∧
    (MongoRepo.VerifyToken store userId controllerId (hmacHex key tok) =
        .error .tokenIncorrect →
        (Handler.VerifyToken hmacHex key store (some userId) controllerId
          (some tok)).1 = ⟨400, resVerifyIncorrect, none⟩) := by
  refine ⟨fun h => ?_, fun h => ?_, fun h => ?_⟩ <;>
    simp [Handler.VerifyToken, hcid, htok, h, Handler.verifyTokenRespond]

/-- Witness for the amended C9 covering all three outcomes concretely. -/
theorem c9_status_mapping_amended_witness :
    (Handler.VerifyToken (fun _ m => m) "key"
        [⟨"f1d67e51-4ca4-4b25-a4b7-6c8f06822075",
          "76de6d55-e457-4070-8aef-5633726d498f", "Controller", "", "",
          "11111111-1111-4111-8111-111111111111"⟩]
        (some "76de6d55-e457-4070-8aef-5633726d498f")
        "f1d67e51-4ca4-4b25-a4b7-6c8f06822075"
        (some "11111111-1111-4111-8111-111111111111")).1 =
      ⟨200, resVerifyOk, none⟩ ∧
    (Handler.VerifyToken (fun _ m => m) "key" []
        (some "76de6d55-e457-4070-8aef-5633726d498f")
        "f1d67e51-4ca4-4b25-a4b7-6c8f06822075"
        (some "11111111-1111-4111-8111-111111111111")).1 =
      ⟨404, resNotFound, none⟩ ∧
    (Handler.VerifyToken (fun _ m => m) "key"
        [⟨"f1d67e51-4ca4-4b25-a4b7-6c8f06822075",
          "76de6d55-e457-4070-8aef-5633726d498f", "Controller", "", "",
          "22222222-2222-4222-8222-222222222222"⟩]
        (some "76de6d55-e457-4070-8aef-5633726d498f")
        "f1d67e51-4ca4-4b25-a4b7-6c8f06822075"
        (some "11111111-1111-4111-8111-111111111111")).1 =
      ⟨400, resVerifyIncorrect, none⟩ := by
  refine ⟨?_, ?_, ?_⟩
  · exact (c9_status_mapping_amended (fun _ m => m) "key"
      [⟨"f1d67e51-4ca4-4b25-a4b7-6c8f06822075",
        "76de6d55-e457-4070-8aef-5633726d498f", "Controller", "", "",
        "11111111-1111-4111-8111-111111111111"⟩]
      "76de6d55-e457-4070-8aef-5633726d498f"
      "f1d67e51-4ca4-4b25-a4b7-6c8f06822075"
      "11111111-1111-4111-8111-111111111111"
      (by decide) (by decide)).1 rfl
  · exact (c9_status_mapping_amended (fun _ m => m) "key" []
      "76de6d55-e457-4070-8aef-5633726d498f"
      "f1d67e51-4ca4-4b25-a4b7-6c8f06822075"
      "11111111-1111-4111-8111-111111111111"
      (by decide) (by decide)).2.1 rfl
  · exact (c9_status_mapping_amended (fun _ m => m) "key"
      [⟨"f1d67e51-4ca4-4b25-a4b7-6c8f06822075",
        "76de6d55-e457-4070-8aef-5633726d498f", "Controller", "", "",
        "22222222-2222-4222-8222-222222222222"⟩]
      "76de6d55-e457-4070-8aef-5633726d498f"
      "f1d67e51-4ca4-4b25-a4b7-6c8f06822075"
      "11111111-1111-4111-8111-111111111111"
      (by decide) (by decide)).2.2 rfl

/-- C10: Implicit token-shape gate.  A request whose body lacks the token
field or whose token is not a lowercase version-4 uuid string is answered
400 "invalid values" with no store interaction at all, and any execution
that does interact with the store carried a uuid4-shaped token. -/
theorem c10_token_shape_gate (hmacHex : String → String → String)
    (key : String) (store : ControllerStore) (userId controllerId : String)
    (hcid : uuidParseOk controllerId = true) :
    Handler.VerifyToken hmacHex key store (some userId) controllerId none =
      (⟨400, resInvalid, none⟩, []) ∧
    (∀ tok, isUuid4 tok = false →
        Handler.VerifyToken hmacHex key store (some userId) controllerId
          (some tok) = (⟨400, resInvalid, none⟩, [])) ∧
    (∀ tok, (Handler.VerifyToken hmacHex key store (some userId) controllerId
        (some tok)).2 ≠ [] → isUuid4 tok = true) := by
  refine ⟨?_, ?_, ?_⟩
  · simp [Handler.VerifyToken, hcid]
  · intro tok h
    simp [Handler.VerifyToken, hcid, h]
  · intro tok h
    by_cases ht : isUuid4 tok = true
    · exact ht
    · exact absurd (by simp [Handler.VerifyToken, hcid, ht]) h

/-- Witness for C10: a missing token field and the malformed token the test
suite uses are both rejected without touching the store. -/
theorem c10_token_shape_gate_witness :
    Handler.VerifyToken (fun _ m => m) "key" []
      (some "76de6d55-e457-4070-8aef-5633726d498f")
      "f1d67e51-4ca4-4b25-a4b7-6c8f06822075" none =
      (⟨400, resInvalid, none⟩, []) ∧
    Handler.VerifyToken (fun _ m => m) "key" []
      (some "76de6d55-e457-4070-8aef-5633726d498f")
      "f1d67e51-4ca4-4b25-a4b7-6c8f06822075" (some "fnjdslfnlk") =
      (⟨400, resInvalid, none⟩, []) := by
  have h := c10_token_shape_gate (fun _ m => m) "key" []
    "76de6d55-e457-4070-8aef-5633726d498f"
    "f1d67e51-4ca4-4b25-a4b7-6c8f06822075" (by decide)
  exact ⟨h.1, h.2.1 "fnjdslfnlk" (by decide)⟩

end Ags
